import Mathlib

/-!
Verification of the response-processing pipeline of the Task Master CLI
(`scripts/modules/ai-services.js`).

The JavaScript source is shallowly embedded: JSON values become an
inductive `Json` type (numbers restricted to integers, which covers every
value handled by the pipeline under verification), `JSON.parse` becomes an
executable recursive-descent parser over character lists, thrown
exceptions become `Except`/`JsOut` values, and the external model calls
become explicit oracles (lists of canned responses / indexed outcome
functions).  The sync-function/async-promise distinction of the source —
a synchronous function that returns a pending promise does not route that
promise's later rejection through its own `catch` — is modelled by the
three-valued outcome type `JsOut` (`val` / `prom` / `thrown`).
-/

/-! ## Character-list utilities -/

/-- Lower-case every character (JS `String.prototype.toLowerCase` for the
ASCII strings handled by the pipeline). -/
def lowerChars (l : List Char) : List Char := l.map Char.toLower

/-- `leadsWith p s` : `p` is an initial segment of `s`. -/
def leadsWith (pat s : List Char) : Bool :=
  match pat, s with
  | [], _ => true
  | q :: qs, c :: cs => q == c && leadsWith qs cs
  | _ :: _, [] => false

/-- `occursIn pat s` : `pat` occurs contiguously inside `s`
(JS `String.prototype.includes`). -/
def occursIn (pat : List Char) : List Char → Bool
  | [] => pat.isEmpty
  | c :: cs => leadsWith pat (c :: cs) || occursIn pat cs

/-- JS `s.toLowerCase().includes(sub)` with `sub` already lower-case. -/
def containsCI (s sub : String) : Bool :=
  occursIn (lowerChars sub.toList) (lowerChars s.toList)

/-- Index of the first occurrence of `c` (JS `String.prototype.indexOf`,
with `none` for `-1`). -/
def firstIdxOf (c : Char) : List Char → Option Nat
  | [] => none
  | x :: xs => if x == c then some 0 else (firstIdxOf c xs).map (· + 1)

/-- Index of the last occurrence of `c` (JS `String.prototype.lastIndexOf`,
with `none` for `-1`). -/
def lastIdxOf (c : Char) : List Char → Option Nat
  | [] => none
  | x :: xs =>
    match lastIdxOf c xs with
    | some i => some (i + 1)
    | none => if x == c then some 0 else none

/-- Characters at positions `[i, j)` (JS `String.prototype.substring` for
`i ≤ j`; for `i > j` it yields `[]`, matching `substring`'s clamping for
the adjacent-index uses in the source). -/
def sliceChars (l : List Char) (i j : Nat) : List Char := (l.drop i).take (j - i)

/-- The `{` character, kept out of string literals. -/
def lbrace : Char := Char.ofNat 123

/-- The `}` character, kept out of string literals. -/
def rbrace : Char := Char.ofNat 125

/-- Map over a list with the position index, starting the count at `k`
(JS `Array.prototype.map`'s `(element, index)` callback). -/
def mapIdxFrom (f : Nat → α → β) : Nat → List α → List β
  | _, [] => []
  | k, x :: xs => f k x :: mapIdxFrom f (k + 1) xs

/-! ## JSON values -/

/-- JSON values as handled by the pipeline.  Numbers are restricted to
integers: every numeric field the pipeline reads or writes (ids,
dependency ids, counts, scores) is integral. -/
inductive Json where
  | null : Json
  | bool (b : Bool) : Json
  | num (n : Int) : Json
  | str (s : String) : Json
  | arr (elems : List Json) : Json
  | obj (fields : List (String × Json)) : Json

/-! ## JSON parser (the embedding of `JSON.parse`)

Recursive descent over a character list with a fuel bound large enough
for any input of the given length.  Restrictions against real
`JSON.parse`: numbers must be integers (no fraction/exponent) and string
escapes are the single-character ones (no `\uXXXX`); both are documented
narrowings that no claim depends on. -/

/-- JSON whitespace: space, tab, line feed, carriage return (given by
code point). -/
def isJsonWs (c : Char) : Bool :=
  c.toNat = 32 || c.toNat = 9 || c.toNat = 10 || c.toNat = 13

/-- Skip JSON whitespace. -/
def skipWs : List Char → List Char
  | [] => []
  | c :: cs => if isJsonWs c then skipWs cs else c :: cs

/-- The escape table of JSON strings: each escapable letter paired with
the character it denotes. -/
def escapePairs : List (Char × Char) :=
  [('"', '"'), ('\\', '\\'), ('/', '/'), ('n', '\n'), ('t', '\t'), ('r', '\r'),
   ('b', Char.ofNat 8), ('f', Char.ofNat 12)]

/-- Decode a single-character escape sequence via the escape table. -/
def unescape (c : Char) : Option Char :=
  (escapePairs.find? (fun q => q.1 == c)).map (fun q => q.2)

/-- Parse the body of a JSON string (opening quote already consumed);
returns the decoded characters and the remainder after the closing
quote. -/
def parseStringChars : List Char → Option (List Char × List Char)
  | [] => none
  | '\\' :: e :: rest =>
    (unescape e).bind fun c =>
      (parseStringChars rest).map fun p => (c :: p.1, p.2)
  | c :: rest =>
    if c == '"' then some ([], rest)
    else (parseStringChars rest).map fun p => (c :: p.1, p.2)

/-- Numeric value of a digit string. -/
def digitsToNat (l : List Char) : Nat := l.foldl (fun a c => a * 10 + (c.toNat - 48)) 0

/-- Parse an unsigned integer literal, rejecting fractions/exponents. -/
def parseNatChars (l : List Char) : Option (Nat × List Char) :=
  let ds := l.takeWhile Char.isDigit
  let rest := l.drop ds.length
  if ds.isEmpty then none
  else
    match rest with
    | '.' :: _ => none
    | 'e' :: _ => none
    | 'E' :: _ => none
    | _ => some (digitsToNat ds, rest)

/-- Parse a (possibly negated) integer literal. -/
def parseIntChars (l : List Char) : Option (Int × List Char) :=
  match l with
  | '-' :: rest => (parseNatChars rest).map fun p => (-(p.1 : Int), p.2)
  | _ => (parseNatChars l).map fun p => ((p.1 : Int), p.2)

/-- Parse a comma-separated list of values up to `]`, given a parser `pv`
for single values. -/
def parseElems (pv : List Char → Option (Json × List Char)) :
    Nat → List Char → Option (List Json × List Char)
  | 0, _ => none
  | fuel + 1, cs =>
    match pv (skipWs cs) with
    | none => none
    | some (v, rest) =>
      match skipWs rest with
      | ',' :: rest2 => (parseElems pv fuel rest2).map fun p => (v :: p.1, p.2)
      | ']' :: rest2 => some ([v], rest2)
      | _ => none

/-- Parse a comma-separated list of `"key": value` members up to `}`,
given a parser `pv` for single values. -/
def parseMembers (pv : List Char → Option (Json × List Char)) :
    Nat → List Char → Option (List (String × Json) × List Char)
  | 0, _ => none
  | fuel + 1, cs =>
    match skipWs cs with
    | '"' :: rest =>
      match parseStringChars rest with
      | none => none
      | some (k, rest2) =>
        match skipWs rest2 with
        | ':' :: rest3 =>
          match pv (skipWs rest3) with
          | none => none
          | some (v, rest4) =>
            match skipWs rest4 with
            | ',' :: rest5 =>
              (parseMembers pv fuel rest5).map fun p => ((String.mk k, v) :: p.1, p.2)
            | c :: rest5 =>
              if c == rbrace then some ([(String.mk k, v)], rest5) else none
            | [] => none
        | _ => none
    | _ => none

/-- Parse one JSON value; returns the value and the unconsumed
remainder. -/
def parseValue : Nat → List Char → Option (Json × List Char)
  | 0, _ => none
  | fuel + 1, cs =>
    match skipWs cs with
    | [] => none
    | c :: rest =>
      if c == 'n' then
        if leadsWith ['u', 'l', 'l'] rest then some (.null, rest.drop 3) else none
      else if c == 't' then
        if leadsWith ['r', 'u', 'e'] rest then some (.bool true, rest.drop 3) else none
      else if c == 'f' then
        if leadsWith ['a', 'l', 's', 'e'] rest then some (.bool false, rest.drop 4) else none
      else if c == '"' then
        (parseStringChars rest).map fun p => (.str (String.mk p.1), p.2)
      else if c == '[' then
        match skipWs rest with
        | ']' :: rest2 => some (.arr [], rest2)
        | _ => (parseElems (parseValue fuel) (fuel + 1) rest).map fun p => (.arr p.1, p.2)
      else if c == lbrace then
        match skipWs rest with
        | c2 :: rest2 =>
          if c2 == rbrace then some (.obj [], rest2)
          else (parseMembers (parseValue fuel) (fuel + 1) rest).map fun p => (.obj p.1, p.2)
        | [] => none
      else
        (parseIntChars (c :: rest)).map fun p => (.num p.1, p.2)

/-- The embedding of `JSON.parse`: parse the whole string as one JSON
value, failing on trailing non-whitespace (as `JSON.parse` does). -/
def Json.parse (s : String) : Option Json :=
  match parseValue (2 * s.length + 8) s.toList with
  | some (v, rest) => if (skipWs rest).isEmpty then some v else none
  | none => none

/-! ## Object field access -/

/-- First binding of `key` in an association list (JS property lookup:
our builders keep at most one binding per key). -/
def lookupField : List (String × Json) → String → Option Json
  | [], _ => none
  | (k, v) :: rest, key => if k == key then some v else lookupField rest key

/-- JS `o.key` (with `none` for `undefined` or a non-object receiver). -/
def Json.getField : Json → String → Option Json
  | .obj fs, key => lookupField fs key
  | _, _ => none

/-- Set `key` in an association list, replacing in place or appending —
the property-order behaviour of a JS object spread followed by an
override. -/
def setFieldList : List (String × Json) → String → Json → List (String × Json)
  | [], key, v => [(key, v)]
  | (k, w) :: rest, key, v =>
    if k == key then (k, v) :: rest else (k, w) :: setFieldList rest key v

/-- JS `{ ...o, key: v }`: every field of `o`, with `key` bound to `v`.
A non-object receiver spreads to nothing, leaving only the override. -/
def Json.setField : Json → String → Json → Json
  | .obj fs, key, v => .obj (setFieldList fs key v)
  | _, key, v => .obj [(key, v)]

/-! ## Gemini error objects and `handleGeminiError` -/

/-- The shape of an error object as inspected by `handleGeminiError` and
the retry logic: `.type` (present as the string `"error"` for structured
provider errors), `.error` (the structured payload's `.type` and
`.message`), and the plain `.message` (absent models JS `undefined`). -/
structure GeminiError where
  etype : Option String
  inner : Option (String × String)
  message : Option String

/-- JS `error.message?.toLowerCase().includes(sub)` — `false` when
`message` is `undefined` (optional chaining short-circuits). -/
def msgIncludes (e : GeminiError) (sub : String) : Bool :=
  match e.message with
  | some m => containsCI m sub
  | none => false

/-- JS string interpolation of a possibly-undefined value. -/
def jsShow (o : Option String) : String :=
  match o with
  | some s => s
  | none => "undefined"

/-- `handleGeminiError` (ai-services.js:48-73): map a provider error to a
user-facing message.  Structured errors (`error.type === 'error' &&
error.error`) are switched on the exact `error.error.type` string;
everything else falls through to the case-insensitive timeout/network
message checks and then the generic message. -/
def handleGeminiError (e : GeminiError) : String :=
  if e.etype == some "error" && e.inner.isSome then
    match e.inner with
    | some (t, m) =>
      if t == "OVERLOADED_ERROR" then
        "Gemini is currently experiencing high demand and is overloaded. Please wait a few minutes and try again."
      else if t == "RATE_LIMIT_ERROR" then
        "You have exceeded the rate limit. Please wait a few minutes before making more requests."
      else if t == "INVALID_REQUEST_ERROR" then
        "There was an issue with the request format. If this persists, please report it as a bug."
      else
        "Gemini API error: " ++ m
    | none => ""
  else if msgIncludes e "timeout" then
    "The request to Gemini timed out. Please try again."
  else if msgIncludes e "network" then
    "There was a network error connecting to Gemini. Please check your internet connection and try again."
  else
    "Error communicating with Gemini: " ++ jsShow e.message

/-! ## `callGemini` retry loop -/

/-- Outcome of one attempt of the PRD-generation call (the awaited
`handleStreamingRequest` round-trip): a successful structured result, or
a thrown error object. -/
inductive Attempt where
  | success (r : Json) : Attempt
  | failure (e : GeminiError) : Attempt

/-- The retryability test of `callGemini` (ai-services.js:147-152):
the error message contains (case-insensitively) one of the four
transient-failure terms. -/
def isRetryableError (e : GeminiError) : Bool :=
  msgIncludes e "overloaded" || msgIncludes e "rate limit" ||
    msgIncludes e "timeout" || msgIncludes e "network"

/-- `callGemini` (ai-services.js:83-165), with the provider modelled as
an oracle giving the outcome of attempt number `rc` (the retry counter
counts exactly the attempts, starting at 0).  Returns the final outcome
(`ok` result or thrown user message) together with the list of backoff
waits (ms) performed before retries.  The structural `fuel` only bounds
the recursion; since a retry needs `rc < 2`, any `fuel ≥ 3` is enough
(see `callGemini`). -/
def callGeminiAux (oracle : Nat → Attempt) : Nat → Nat → Except String Json × List Nat
  | 0, _ => (.error "fuel exhausted", [])
  | fuel + 1, rc =>
    match oracle rc with
    | .success r => (.ok r, [])
    | .failure e =>
      let userMessage := handleGeminiError e
      if rc < 2 && isRetryableError e then
        let rest := callGeminiAux oracle fuel (rc + 1)
        (rest.1, (rc + 1) * 5000 :: rest.2)
      else
        (.error userMessage, [])

/-- `callGemini` proper: the recursion of ai-services.js:147-156 retries
at most while `retryCount < 2`, so a fuel of 3 covers every run. -/
def callGemini (oracle : Nat → Attempt) (rc : Nat) : Except String Json × List Nat :=
  callGeminiAux oracle 3 rc

/-! ## `processGeminiResponse` / `retryWithGemini` -/

/-- The three ways a JS function call can come back to its caller:
a plain returned value, a returned (pending) promise with eventual
outcome `r`, or a synchronously thrown error.  The distinction matters:
only a synchronous throw is caught by the caller's `try`/`catch`;
a returned promise's later rejection bypasses every `catch` on the
synchronous return path. -/
inductive JsOut (α : Type) where
  | val (a : α) : JsOut α
  | prom (r : Except String α) : JsOut α
  | thrown (e : String) : JsOut α

/-- Mutable context threaded through the response-processing recursion:
the queue of canned model responses for repair round-trips (the oracle
for `retryWithGemini`'s `generateContent` call), the number of repair
round-trips performed, and the warnings logged. -/
structure PCtx where
  repairs : List String
  repairCalls : Nat
  warns : List String

/-- The brace-window scan shared by `processGeminiResponse` and
`cleanupJsonResponse`: `indexOf('{')` to `lastIndexOf('}')`, `none` when
either marker is missing. -/
def extractBraces (s : String) : Option String :=
  match firstIdxOf lbrace s.toList, lastIdxOf rbrace s.toList with
  | some i, some j => some (String.mk (sliceChars s.toList i (j + 1)))
  | _, _ => none

/-- `cleanupJsonResponse` (ai-services.js:296-306): re-scan the same
brace window, returning the content unchanged when no markers exist. -/
def cleanupJsonResponse (content : String) : String :=
  match extractBraces content with
  | some j => j
  | none => content

/-- Inner-`try` verdict of `processGeminiResponse`: the parsed result and
its `tasks` array when the parse and the shape check succeed. -/
def prdShapeCheck (jsonContent : String) : Option (Json × List Json) :=
  match Json.parse jsonContent with
  | some r =>
    match r.getField "tasks" with
    | some (.arr ts) => some (r, ts)
    | _ => none
  | _ => none

/-- The length-mismatch warning of ai-services.js:262. -/
def expectedTasksWarn (numTasks got : Nat) : String :=
  "Expected " ++ toString numTasks ++ " tasks, but got " ++ toString got

/-- `processGeminiResponse` (ai-services.js:240-289, `mode = true`) and
`retryWithGemini` (ai-services.js:317-372, `mode = false`) as one
fuel-indexed function (they are mutually recursive; the fuel only bounds
the recursion and is irrelevant for any run that terminates).

`mode = true` (processGeminiResponse, a synchronous function):
 * outer try: brace-window extraction; no window → throw `No valid JSON
   found in the response`;
 * inner try: `JSON.parse` the window, require a truthy `tasks` array
   (`metadata` is never inspected); warn on a length mismatch and return
   the parsed result as-is;
 * inner catch: while `retryCount < 3`, re-enter on the cleanup of the
   same text with `retryCount + 1`; a value or promise produced there is
   returned unchanged, a synchronous throw falls into this frame's outer
   catch; at `retryCount ≥ 3` throw `Failed to parse JSON response after
   multiple attempts` into the outer catch;
 * outer catch: while `retryCount < 2`, return the promise of
   `retryWithGemini` on this frame's text with `retryCount + 1`;
   otherwise throw `Failed to process response: <message>`.

`mode = false` (retryWithGemini, an async function — its result is
always a promise): consume the next canned repair response (an empty
queue models a failing model call); re-enter `processGeminiResponse` on
it with the same `retryCount`: a returned value resolves the promise, a
synchronous throw is caught and re-thrown as `Failed to fix JSON
response: <message>`, and a returned promise is adopted as-is — its
rejection bypasses `retryWithGemini`'s catch. -/
def geminiResponseStep : Nat → Bool → String → Nat → Nat → PCtx → JsOut Json × PCtx
  | 0, _, _, _, _, st => (.thrown "fuel exhausted", st)
  | fuel + 1, true, text, numTasks, retryCount, st =>
    let step1 : JsOut Json × PCtx :=
      match extractBraces text with
      | none => (.thrown "No valid JSON found in the response", st)
      | some jsonContent =>
        match prdShapeCheck jsonContent with
        | some (r, ts) =>
          if ts.length = numTasks then (.val r, st)
          else (.val r, ⟨st.repairs, st.repairCalls, st.warns ++ [expectedTasksWarn numTasks ts.length]⟩)
        | none =>
          if retryCount < 3 then
            geminiResponseStep fuel true (cleanupJsonResponse text) numTasks (retryCount + 1) st
          else
            (.thrown "Failed to parse JSON response after multiple attempts", st)
    match step1 with
    | (.thrown e, st') =>
      if retryCount < 2 then
        geminiResponseStep fuel false text numTasks (retryCount + 1) st'
      else
        (.thrown ("Failed to process response: " ++ e), st')
    | other => other
  | fuel + 1, false, _, numTasks, retryCount, st =>
    match st.repairs with
    | [] =>
      (.prom (.error "Failed to fix JSON response: model call failed"),
       ⟨[], st.repairCalls + 1, st.warns⟩)
    | fixedContent :: rest =>
      let st' : PCtx := ⟨rest, st.repairCalls + 1, st.warns⟩
      match geminiResponseStep fuel true fixedContent numTasks retryCount st' with
      | (.val a, st'') => (.prom (.ok a), st'')
      | (.prom r, st'') => (.prom r, st'')
      | (.thrown e, st'') => (.prom (.error ("Failed to fix JSON response: " ++ e)), st'')

/-- `processGeminiResponse` proper (see `geminiResponseStep`). -/
def processGeminiResponse (fuel : Nat) (textContent : String) (numTasks retryCount : Nat)
    (st : PCtx) : JsOut Json × PCtx :=
  geminiResponseStep fuel true textContent numTasks retryCount st

/-- `retryWithGemini` proper (see `geminiResponseStep`); its outcome is
always a promise. -/
def retryWithGemini (fuel : Nat) (problemContent : String) (numTasks retryCount : Nat)
    (st : PCtx) : JsOut Json × PCtx :=
  geminiResponseStep fuel false problemContent numTasks retryCount st

/-! ## Markdown-fence and bracket extraction for the subtask/complexity
responses -/

/-- The backtick character, kept out of the source text. -/
def backtick : Char := Char.ofNat 96

/-- A Markdown code fence. -/
def fencePat : List Char := [backtick, backtick, backtick]

/-- Start index of the first occurrence of `pat`. -/
def firstSubIdx (pat : List Char) : List Char → Option Nat
  | [] => if pat.isEmpty then some 0 else none
  | c :: cs =>
    if leadsWith pat (c :: cs) then some 0 else (firstSubIdx pat cs).map (· + 1)

/-- Start index of the last occurrence of `pat`. -/
def lastSubIdx (pat : List Char) : List Char → Option Nat
  | [] => if pat.isEmpty then some 0 else none
  | c :: cs =>
    match lastSubIdx pat cs with
    | some i => some (i + 1)
    | none => if leadsWith pat (c :: cs) then some 0 else none

/-- Trim whitespace from both ends. -/
def trimWsBoth (l : List Char) : List Char := (skipWs (skipWs l).reverse).reverse

/-- Content strictly between the first code fence (with its optional
`json` tag) and the last code fence after it, whitespace-trimmed —
the `(?:json)?\s*(…)\s*` part of the fenced-extraction regexes. -/
def fencedInner (s : String) : Option (List Char) :=
  match firstSubIdx fencePat s.toList with
  | none => none
  | some i =>
    let afterOpen := (s.toList.drop (i + 3))
    let afterTag :=
      if leadsWith ['j', 's', 'o', 'n'] afterOpen then afterOpen.drop 4 else afterOpen
    match lastSubIdx fencePat afterTag with
    | none => none
    | some j => some (trimWsBoth (afterTag.take j))

/-- `cs` begins with `[` followed (after whitespace) by `{` — the
`\[\s*\{` anchor of the subtask-array regexes. -/
def arrOpenAnchor (cs : List Char) : Bool :=
  match cs with
  | '[' :: rest =>
    match skipWs rest with
    | c :: _ => c == lbrace
    | [] => false
  | _ => false

/-- Reversed-list form of the `\}\s*\]` closing anchor. -/
def arrCloseAnchorRev (cs : List Char) : Bool :=
  match cs with
  | ']' :: rest =>
    match skipWs rest with
    | c :: _ => c == rbrace
    | [] => false
  | _ => false

/-- Leftmost index whose suffix satisfies `p`. -/
def firstIdxWhere (p : List Char → Bool) : List Char → Option Nat
  | [] => if p [] then some 0 else none
  | c :: cs =>
    if p (c :: cs) then some 0 else (firstIdxWhere p cs).map (· + 1)

/-- The non-fenced subtask-array regex `(\[\s*\{.*\}\s*\])` (dot-all,
greedy): from the leftmost `[`-ws-`{` anchor to the rightmost
`}`-ws-`]` anchor. -/
def extractArrayCandidate (s : String) : Option String :=
  let cs := s.toList
  match firstIdxWhere arrOpenAnchor cs,
      (firstIdxWhere arrCloseAnchorRev cs.reverse).map (fun k => cs.length - 1 - k) with
  | some i, some j => if i < j then some (String.mk (sliceChars cs i (j + 1))) else none
  | _, _ => none

/-- The fenced subtask-array regex: the fenced content, trimmed, must be
an `[`-ws-`{` … `}`-ws-`]` block. -/
def fencedArrayCandidate (s : String) : Option String :=
  match fencedInner s with
  | none => none
  | some inner =>
    if arrOpenAnchor inner && arrCloseAnchorRev inner.reverse then
      some (String.mk inner)
    else none

/-- The `jsonText` computation of `createSubtasksWithGemini`
(ai-services.js:626-629) and `fixSubtasksJson` (ai-services.js:719-722):
fenced match, else bare array match, else the whole response. -/
def extractSubtasksJson (response : String) : String :=
  match fencedArrayCandidate response with
  | some s => s
  | none =>
    match extractArrayCandidate response with
    | some s => s
    | none => response

/-- The non-fenced complexity regex `(\{.*\})` (dot-all, greedy): from
the first `{` to the last `}`, requiring the former before the latter. -/
def extractObjCandidate (s : String) : Option String :=
  match firstIdxOf lbrace s.toList, lastIdxOf rbrace s.toList with
  | some i, some j =>
    if i < j then some (String.mk (sliceChars s.toList i (j + 1))) else none
  | _, _ => none

/-- The fenced complexity regex: the fenced content, trimmed, must be a
`{` … `}` block. -/
def fencedObjCandidate (s : String) : Option String :=
  match fencedInner s with
  | none => none
  | some inner =>
    match inner with
    | c :: _ =>
      if c == lbrace && (inner.reverse.head? == some rbrace) then
        some (String.mk inner)
      else none
    | [] => none

/-- The `jsonText` computation of `analyzeTaskComplexity`
(ai-services.js:827-830). -/
def extractComplexityJson (response : String) : String :=
  match fencedObjCandidate response with
  | some s => s
  | none =>
    match extractObjCandidate response with
    | some s => s
    | none => response

/-! ## `createSubtasksWithGemini` / `fixSubtasksJson` response processing -/

/-- The map of ai-services.js:642-647 and ai-services.js:731-736:
`{ ...subtask, id: `<parentTaskId>.<index+1>` }` over the parsed array —
every element's `id` overwritten from its position, whatever the model
returned. -/
def overwriteSubtaskIds (parentTaskId : String) (l : List Json) : List Json :=
  mapIdxFrom
    (fun index subtask =>
      subtask.setField "id" (.str (parentTaskId ++ "." ++ toString (index + 1)))) 0 l

/-- The length-mismatch warning of ai-services.js:638. -/
def expectedSubtasksWarn (numSubtasks got : Nat) : String :=
  "Expected " ++ toString numSubtasks ++ " subtasks, but got " ++ toString got

/-- `fixSubtasksJson` (ai-services.js:671-746), response processing with
the repair model call as an oracle (`none` models a failing call):
extract, parse, require an array — no length warning here — and
overwrite every `id` positionally; any parse/shape failure is fatal. -/
def fixSubtasksJson (fixResponse : Option String) (parentTaskId : String)
    (numSubtasks : Nat) : Except String (List Json) :=
  match fixResponse with
  | none => .error "model call failed"
  | some response =>
    match Json.parse (extractSubtasksJson response) with
    | some (.arr l) => .ok (overwriteSubtaskIds parentTaskId l)
    | _ => .error "Failed to fix subtasks JSON after retry"

/-- `createSubtasksWithGemini` (ai-services.js:550-662), response
processing with the two model calls as oracles: extract and parse the
response; on an array, warn (only) on a length mismatch and overwrite
every `id` positionally; on any parse/shape failure, fall through to
`fixSubtasksJson` on the repair oracle.  `numSubtasks` is never used to
correct the array. -/
def createSubtasksWithGemini (response : String) (fixResponse : Option String)
    (parentTaskId : String) (numSubtasks : Nat) :
    Except String (List Json) × List String :=
  match Json.parse (extractSubtasksJson response) with
  | some (.arr l) =>
    let warns :=
      if l.length = numSubtasks then [] else [expectedSubtasksWarn numSubtasks l.length]
    (.ok (overwriteSubtaskIds parentTaskId l), warns)
  | _ => (fixSubtasksJson fixResponse parentTaskId numSubtasks, [])

/-! ## `analyzeTaskComplexity` response processing -/

/-- Remove every binding of `key`. -/
def removeField : List (String × Json) → String → List (String × Json)
  | [], _ => []
  | (k, v) :: rest, key =>
    if k == key then removeField rest key else (k, v) :: removeField rest key

/-- JS `{ taskId: tid, ...complexityData }` (ai-services.js:833-836):
`taskId` is written first and then the spread is applied over it, so a
`taskId` field inside `complexityData` overwrites the caller-supplied
one.  A non-object spread contributes no fields. -/
def attachTaskId (tid : Json) (complexityData : Json) : Json :=
  match complexityData with
  | .obj fs => .obj (("taskId", (lookupField fs "taskId").getD tid) :: removeField fs "taskId")
  | _ => .obj [("taskId", tid)]

/-- `analyzeTaskComplexity` (ai-services.js:754-847), response
processing: extract, parse, and return `{ taskId: taskData.id,
...complexityData }`; a parse failure throws `Failed to parse complexity
analysis` — there is no fallback. -/
def analyzeTaskComplexity (response : String) (taskId : Json) : Except String Json :=
  match Json.parse (extractComplexityJson response) with
  | some complexityData => .ok (attachTaskId taskId complexityData)
  | none => .error "Failed to parse complexity analysis"

/-! ## `getPerplexityClient` / `expandTaskWithResearch` -/

/-- `getPerplexityClient` (ai-services.js:30-41): throw when
`PERPLEXITY_API_KEY` is absent, succeed otherwise (the constructed
client itself is irrelevant here). -/
def getPerplexityClient (hasPerplexityKey : Bool) : Except String Unit :=
  if hasPerplexityKey then .ok ()
  else .error "PERPLEXITY_API_KEY environment variable is missing. Set it to use research-backed features."

/-- `expandTaskWithResearch` (ai-services.js:381-433) with the external
calls as oracles: `research` is the Perplexity completion,
`refine` the Gemini refinement of its result, `fallback` the
`expandTaskWithGemini` result.  The single `catch` treats every error —
including the missing-credential throw of `getPerplexityClient` —
alike: while `retryCount < 2`, wait `(retryCount + 1) × 5000` ms and
retry the whole flow; once the budget is exhausted, return the
no-research fallback instead of surfacing the error.  Returns the
outcome and the backoff waits performed. -/
def expandTaskWithResearchAux (hasPerplexityKey : Bool)
    (research refine fallback : Except String String) :
    Nat → Nat → Except String String × List Nat
  | 0, _ => (.error "fuel exhausted", [])
  | fuel + 1, retryCount =>
    let attempt : Except String String :=
      match getPerplexityClient hasPerplexityKey with
      | .error e => .error e
      | .ok _ =>
        match research with
        | .error e => .error e
        | .ok _ => refine
    match attempt with
    | .ok v => (.ok v, [])
    | .error _ =>
      if retryCount < 2 then
        let rest :=
          expandTaskWithResearchAux hasPerplexityKey research refine fallback fuel (retryCount + 1)
        (rest.1, (retryCount + 1) * 5000 :: rest.2)
      else
        (fallback, [])

/-- `expandTaskWithResearch` proper: the retry of ai-services.js:422-426
needs `retryCount < 2`, so a fuel of 3 covers every run. -/
def expandTaskWithResearch (hasPerplexityKey : Bool)
    (research refine fallback : Except String String) (retryCount : Nat) :
    Except String String × List Nat :=
  expandTaskWithResearchAux hasPerplexityKey research refine fallback 3 retryCount

/-! ## Free-standing subtask parser (`parseSubtasksFromText`)

The repository's tests (`tests/unit/ai-services.test.js`) import
`parseSubtasksFromText` from `scripts/modules/ai-services.js`, but that
module's source does not contain the function; only the spec (§4.4,
"Free-standing subtask generation") and the tests describe it.  It is
therefore modelled from the spec. -/

/-- Modelled from the spec: the bracket-widening array scan of §4.3 as
used by the free-standing parser — the widest substring from the first
`[` to the last `]`. -/
def extractBrackets (s : String) : Option String :=
  match firstIdxOf '[' s.toList, lastIdxOf ']' s.toList with
  | some i, some j =>
    if i ≤ j then some (String.mk (sliceChars s.toList i (j + 1))) else none
  | _, _ => none

/-- Modelled from the spec: fenced-block array extraction (§4.3) — the
content between code fences, trimmed, when it is a `[` … `]` block. -/
def fencedArrayBlock (s : String) : Option String :=
  match fencedInner s with
  | none => none
  | some inner =>
    if inner.head? == some '[' && inner.reverse.head? == some ']' then
      some (String.mk inner)
    else none

/-- Modelled from the spec: §4.3's extraction anchored to arrays —
fenced-block match first, then the widest bracket substring. -/
def locateSubtasksArray (text : String) : Option String :=
  match fencedArrayBlock text with
  | some s => some s
  | none => extractBrackets text

/-- Modelled from the spec: locate and parse the subtask array; `none`
when the text is empty, holds no array, or fails to parse as one
(§4.4 step 2's failure condition). -/
def locatedSubtasks (text : String) : Option (List Json) :=
  match locateSubtasksArray text with
  | some s =>
    match Json.parse s with
    | some (.arr l) => some l
    | _ => none
  | none => none

/-- Modelled from the spec: coercion of one dependency entry — a number
stays, a numeric string becomes its integer, anything else cannot be
coerced to a finite integer (§4.4 step 3). -/
def coerceDep : Json → Option Int
  | .num n => some n
  | .str s =>
    match parseIntChars s.toList with
    | some (n, []) => some n
    | _ => none
  | _ => none

/-- Modelled from the spec: coerce a dependency list, dropping the
uncoercible entries (§4.4 step 3). -/
def coerceDeps (deps : List Json) : List Int := deps.filterMap coerceDep

/-- The `dependencies` array of an element (`[]` when absent or not an
array). -/
def getDeps (e : Json) : List Json :=
  match e.getField "dependencies" with
  | some (.arr l) => l
  | _ => []

/-- Modelled from the spec: §4.4 step 3's per-element normalization —
re-number `id` to `startId + index` (ignoring the model's id), attach
`parentTaskId`, coerce `dependencies`; other fields pass through. -/
def normalizeSubtask (startId parentTaskId : Int) (index : Nat) (e : Json) : Json :=
  ((e.setField "id" (.num (startId + index))).setField "parentTaskId"
      (.num parentTaskId)).setField "dependencies"
    (.arr ((coerceDeps (getDeps e)).map Json.num))

/-- Modelled from the spec: the `i`-th placeholder subtask of §4.4
step 2. -/
def fallbackSubtask (startId parentTaskId : Int) (i : Nat) : Json :=
  .obj [("id", .num (startId + i)),
        ("title", .str ("Subtask " ++ toString (i + 1))),
        ("description", .str "Auto-generated fallback subtask"),
        ("status", .str "pending"),
        ("dependencies", .arr []),
        ("parentTaskId", .num parentTaskId)]

/-- Modelled from the spec: the full placeholder list of §4.4 step 2. -/
def fallbackSubtasks (startId : Int) (numSubtasks : Nat) (parentTaskId : Int) : List Json :=
  (List.range numSubtasks).map (fallbackSubtask startId parentTaskId)

/-- Modelled from the spec: `parseSubtasksFromText(text, startId,
numSubtasks, parentTaskId)` (§4.4, "Free-standing subtask generation")
— on a located, parsed array, normalize every element positionally;
otherwise return exactly `numSubtasks` placeholders, never an error. -/
def parseSubtasksFromText (text : String) (startId : Int) (numSubtasks : Nat)
    (parentTaskId : Int) : List Json :=
  match locatedSubtasks text with
  | some l => mapIdxFrom (normalizeSubtask startId parentTaskId) 0 l
  | none => fallbackSubtasks startId numSubtasks parentTaskId

/-! ## Helper lemmas -/

theorem mapIdxFrom_length (f : Nat → α → β) (k : Nat) (l : List α) :
    (mapIdxFrom f k l).length = l.length := by
  induction l generalizing k with
  | nil => rfl
  | cons x xs ih => simp [mapIdxFrom, ih]

theorem mapIdxFrom_getElem? (f : Nat → α → β) (k i : Nat) (l : List α) :
    (mapIdxFrom f k l)[i]? = (l[i]?).map (f (k + i)) := by
  induction l generalizing k i with
  | nil => simp [mapIdxFrom]
  | cons x xs ih =>
    cases i with
    | zero => simp [mapIdxFrom]
    | succ n =>
      have harith : k + 1 + n = k + (n + 1) := by omega
      simp [mapIdxFrom, ih, harith]

theorem lookupField_setFieldList_self (fs : List (String × Json)) (k : String) (v : Json) :
    lookupField (setFieldList fs k v) k = some v := by
  induction fs with
  | nil => simp [setFieldList, lookupField]
  | cons p rest ih =>
    obtain ⟨k', w⟩ := p
    by_cases h : (k' == k) = true <;> simp [setFieldList, lookupField, h, ih]

theorem lookupField_setFieldList_other (fs : List (String × Json)) (k k' : String) (v : Json)
    (h : k' ≠ k) : lookupField (setFieldList fs k v) k' = lookupField fs k' := by
  induction fs with
  | nil =>
    have hne : (k == k') = false := beq_eq_false_iff_ne.mpr (Ne.symm h)
    simp [setFieldList, lookupField, hne]
  | cons p rest ih =>
    obtain ⟨k'', w⟩ := p
    by_cases hk : (k'' == k) = true
    · have hne : (k'' == k') = false :=
        beq_eq_false_iff_ne.mpr (by rw [beq_iff_eq.mp hk]; exact Ne.symm h)
      simp [setFieldList, lookupField, hk, hne]
    · simp [setFieldList, lookupField, hk, ih]

theorem getField_setField_self (j : Json) (k : String) (v : Json) :
    (j.setField k v).getField k = some v := by
  cases j <;> simp [Json.setField, Json.getField, lookupField_setFieldList_self, lookupField]

theorem getField_setField_other (j : Json) (k k' : String) (v : Json) (h : k' ≠ k) :
    (j.setField k v).getField k' = j.getField k' := by
  have hne : (k == k') = false := beq_eq_false_iff_ne.mpr (Ne.symm h)
  cases j <;>
    simp [Json.setField, Json.getField, lookupField_setFieldList_other _ _ _ _ h, lookupField, hne]

theorem lookupField_removeField_other (fs : List (String × Json)) (key k : String)
    (h : k ≠ key) : lookupField (removeField fs key) k = lookupField fs k := by
  induction fs with
  | nil => rfl
  | cons p rest ih =>
    obtain ⟨k', w⟩ := p
    by_cases hk : (k' == key) = true
    · have hne : (k' == k) = false :=
        beq_eq_false_iff_ne.mpr (by rw [beq_iff_eq.mp hk]; exact Ne.symm h)
      simp [removeField, lookupField, hk, hne, ih]
    · simp [removeField, lookupField, hk, ih]

theorem normalizeSubtask_id (s p : Int) (i : Nat) (e : Json) :
    (normalizeSubtask s p i e).getField "id" = some (.num (s + i)) := by
  unfold normalizeSubtask
  rw [getField_setField_other _ _ _ _ (by decide), getField_setField_other _ _ _ _ (by decide),
    getField_setField_self]

theorem normalizeSubtask_parent (s p : Int) (i : Nat) (e : Json) :
    (normalizeSubtask s p i e).getField "parentTaskId" = some (.num p) := by
  unfold normalizeSubtask
  rw [getField_setField_other _ _ _ _ (by decide), getField_setField_self]

theorem normalizeSubtask_deps (s p : Int) (i : Nat) (e : Json) :
    (normalizeSubtask s p i e).getField "dependencies" =
      some (.arr ((coerceDeps (getDeps e)).map Json.num)) := by
  unfold normalizeSubtask
  rw [getField_setField_self]

theorem fallbackSubtasks_length (s p : Int) (n : Nat) :
    (fallbackSubtasks s n p).length = n := by
  simp [fallbackSubtasks]

theorem fallbackSubtasks_getElem? (s p : Int) (n i : Nat) (hi : i < n) :
    (fallbackSubtasks s n p)[i]? = some (fallbackSubtask s p i) := by
  simp [fallbackSubtasks, List.getElem?_map, List.getElem?_range, hi]

theorem coerceDeps_length_add (l : List Json) :
    (coerceDeps l).length + (l.filter (fun e => (coerceDep e).isNone)).length = l.length := by
  induction l with
  | nil => rfl
  | cons e t ih =>
    simp only [coerceDeps, List.filterMap_cons, List.filter_cons] at ih ⊢
    cases h : coerceDep e <;> simp [h] <;> omega

theorem coerceDeps_map_num (m : List Int) : coerceDeps (m.map Json.num) = m := by
  induction m with
  | nil => rfl
  | cons n t ih => simpa [coerceDeps, coerceDep, List.filterMap_cons] using ih

theorem coerceDeps_all_some (l : List Json) (h : ∀ e ∈ l, (coerceDep e).isSome) :
    (coerceDeps l).length = l.length := by
  induction l with
  | nil => rfl
  | cons e t ih =>
    have ht : ∀ x ∈ t, (coerceDep x).isSome := fun x hx => h x (List.mem_cons_of_mem _ hx)
    obtain ⟨n, hn⟩ := Option.isSome_iff_exists.mp (h e (List.mem_cons_self _ _))
    have hlen := ih ht
    simp only [coerceDeps, List.filterMap_cons] at hlen ⊢
    simp [hn, hlen]

/-! ## Claims about the free-standing subtask parser (spec-modelled) -/

/-- C1: for every call `parseSubtasksFromText(text, startId, numSubtasks,
parentTaskId)` where the text is empty, contains no JSON array, or fails
to parse (all three captured by `locatedSubtasks text = none`), the
parser returns — never throws — exactly `numSubtasks` placeholder
subtasks, the `i`-th (0-based) being `{id: startId+i, title:
"Subtask i+1", description: "Auto-generated fallback subtask", status:
"pending", dependencies: [], parentTaskId}`. -/
theorem C1_parser_fallback (text : String) (startId parentTaskId : Int) (numSubtasks : Nat)
    (h : locatedSubtasks text = none) :
    (parseSubtasksFromText text startId numSubtasks parentTaskId).length = numSubtasks ∧
    ∀ i, i < numSubtasks →
      (parseSubtasksFromText text startId numSubtasks parentTaskId)[i]? =
        some (.obj [("id", .num (startId + i)),
          ("title", .str ("Subtask " ++ toString (i + 1))),
          ("description", .str "Auto-generated fallback subtask"),
          ("status", .str "pending"),
          ("dependencies", .arr []),
          ("parentTaskId", .num parentTaskId)]) := by
  constructor
  · simp [parseSubtasksFromText, h, fallbackSubtasks_length]
  · intro i hi
    simp [parseSubtasksFromText, h, fallbackSubtasks_getElem? _ _ _ _ hi, fallbackSubtask]

theorem C1_parser_fallback_witness :
    locatedSubtasks "" = none ∧
    (parseSubtasksFromText "" 1 2 5)[0]? =
      some (.obj [("id", .num 1),
        ("title", .str "Subtask 1"),
        ("description", .str "Auto-generated fallback subtask"),
        ("status", .str "pending"),
        ("dependencies", .arr []),
        ("parentTaskId", .num 5)]) := by
  refine ⟨rfl, ?_⟩
  have h := C1_parser_fallback "" 1 5 2 (by rfl)
  simpa using h.2 0 (by omega)

/-- C7: for every text whose located JSON array parses as `N` task-like
objects, `parseSubtasksFromText text startId N parentId` returns an
array of length `N` whose `i`-th element (0-based) has `id = startId +
i` — whatever id the model assigned — and `parentTaskId = parentId`. -/
theorem C7_parser_renumber (text : String) (startId parentTaskId : Int) (l : List Json)
    (numSubtasks : Nat) (h : locatedSubtasks text = some l)
    (hlen : l.length = numSubtasks) :
    (parseSubtasksFromText text startId numSubtasks parentTaskId).length = numSubtasks ∧
    ∀ i, i < numSubtasks →
      (parseSubtasksFromText text startId numSubtasks parentTaskId)[i]?.bind
          (fun e => e.getField "id") = some (.num (startId + i)) ∧
      (parseSubtasksFromText text startId numSubtasks parentTaskId)[i]?.bind
          (fun e => e.getField "parentTaskId") = some (.num parentTaskId) := by
  constructor
  · simp [parseSubtasksFromText, h, mapIdxFrom_length, hlen]
  · intro i hi
    have hil : i < l.length := by omega
    have hl : l[i]? = some (l.get ⟨i, hil⟩) := List.getElem?_eq_getElem hil
    constructor <;>
      simp [parseSubtasksFromText, h, mapIdxFrom_getElem?, hl, normalizeSubtask_id,
        normalizeSubtask_parent]

/-- Concrete model output for the C7 witness: two task-like objects with
model-assigned ids 10 and 20, embedded in prose. -/
def c7text : String :=
  "prose [\x7b\"id\": 10, \"title\": \"A\", \"dependencies\": []\x7d, \x7b\"id\": 20, \"title\": \"B\", \"dependencies\": [\"1\"]\x7d] tail"

/-- First parsed element of `c7text`. -/
def c7elem1 : Json := .obj [("id", .num 10), ("title", .str "A"), ("dependencies", .arr [])]

/-- Second parsed element of `c7text`. -/
def c7elem2 : Json := .obj [("id", .num 20), ("title", .str "B"), ("dependencies", .arr [.str "1"])]

set_option maxRecDepth 40000 in
theorem C7_parser_renumber_witness :
    (parseSubtasksFromText c7text 1 2 5).length = 2 ∧
    (parseSubtasksFromText c7text 1 2 5)[0]?.bind (fun e => e.getField "id") =
      some (.num 1) ∧
    (parseSubtasksFromText c7text 1 2 5)[1]?.bind (fun e => e.getField "id") =
      some (.num 2) ∧
    (parseSubtasksFromText c7text 1 2 5)[1]?.bind (fun e => e.getField "parentTaskId") =
      some (.num 5) := by
  have h := C7_parser_renumber c7text 1 5 [c7elem1, c7elem2] 2 (by rfl) (by rfl)
  refine ⟨h.1, ?_, ?_, ?_⟩
  · simpa using (h.2 0 (by omega)).1
  · simpa using (h.2 1 (by omega)).1
  · simpa using (h.2 1 (by omega)).2

/-- C8: dependency coercion in the free-standing subtask parser is
idempotent and total — the output length is the input length minus the
uncoercible (dropped) entries, re-coercing an already-coerced array
changes nothing, an array of numbers and numeric strings is coerced
entrywise (so its length is preserved), `"1"` becomes `1`, and the
parser applies exactly this coercion to every element's `dependencies`
array. -/
theorem C8_dependency_coercion (l : List Json) :
    (coerceDeps l).length =
      l.length - (l.filter (fun e => (coerceDep e).isNone)).length ∧
    coerceDeps ((coerceDeps l).map Json.num) = coerceDeps l ∧
    ((∀ e ∈ l, (coerceDep e).isSome) → (coerceDeps l).length = l.length) ∧
    coerceDep (.str "1") = some 1 ∧
    ∀ (startId parentTaskId : Int) (i : Nat) (e : Json),
      (normalizeSubtask startId parentTaskId i e).getField "dependencies" =
        some (.arr ((coerceDeps (getDeps e)).map Json.num)) := by
  refine ⟨?_, coerceDeps_map_num _, coerceDeps_all_some _, by rfl,
    fun s p i e => normalizeSubtask_deps s p i e⟩
  have := coerceDeps_length_add l
  omega

theorem C8_dependency_coercion_witness :
    (coerceDeps [Json.num 2, Json.str "1", Json.bool true]).length = 3 - 1 ∧
    coerceDeps ((coerceDeps [Json.num 2, Json.str "1", Json.bool true]).map Json.num) =
      coerceDeps [Json.num 2, Json.str "1", Json.bool true] ∧
    (coerceDeps [Json.num 2, Json.str "1"]).length = 2 := by
  have h := C8_dependency_coercion [Json.num 2, Json.str "1", Json.bool true]
  have h2 := C8_dependency_coercion [Json.num 2, Json.str "1"]
  exact ⟨by simpa using h.1, h.2.1, h2.2.2.1 (by decide)⟩

/-! ## Claims about `callGemini` and `handleGeminiError` -/

/-- C2: during `callGemini`, an error whose message contains (ignoring
case) "overloaded", "rate limit", "timeout" or "network" is retried with
a backoff of `(attempt+1) × 5000` ms before each retry, up to 2 retries
(3 total attempts, after which the operation fails even on a retryable
error); an error whose message contains none of those terms fails the
operation immediately with no retry. -/
theorem C2_callGemini_retry (oracle : Nat → Attempt) (e : GeminiError)
    (h0 : oracle 0 = .failure e) :
    (isRetryableError e = false →
      callGemini oracle 0 = (.error (handleGeminiError e), [])) ∧
    (isRetryableError e = true →
      (∀ r, oracle 1 = .success r → callGemini oracle 0 = (.ok r, [5000])) ∧
      (∀ e1, oracle 1 = .failure e1 → isRetryableError e1 = true →
        ∀ e2, oracle 2 = .failure e2 →
          callGemini oracle 0 = (.error (handleGeminiError e2), [5000, 10000]))) := by
  refine ⟨fun hr => ?_, fun hr => ⟨fun r h1 => ?_, fun e1 h1 hr1 e2 h2 => ?_⟩⟩
  · simp [callGemini, callGeminiAux, h0, hr]
  · simp [callGemini, callGeminiAux, h0, hr, h1]
  · simp [callGemini, callGeminiAux, h0, hr, h1, hr1, h2]

theorem C2_callGemini_retry_witness :
    callGemini (fun _ => .failure ⟨none, none, some "Rate LIMIT hit"⟩) 0 =
      (.error (handleGeminiError ⟨none, none, some "Rate LIMIT hit"⟩), [5000, 10000]) ∧
    callGemini (fun _ => .failure ⟨none, none, some "bad api key"⟩) 0 =
      (.error "Error communicating with Gemini: bad api key", []) := by
  constructor
  · exact ((C2_callGemini_retry _ _ rfl).2 (by decide)).2 _ rfl (by decide) _ rfl
  · exact (C2_callGemini_retry (fun _ => .failure ⟨none, none, some "bad api key"⟩) _ rfl).1
      (by decide)

/-- C10: `handleGeminiError` classifies structured provider errors
case-sensitively — the specific overload / rate-limit / invalid-request
messages are returned only when `error.error.type` exactly equals
`'OVERLOADED_ERROR'`, `'RATE_LIMIT_ERROR'` or `'INVALID_REQUEST_ERROR'`;
any other type string (lowercase variants included) yields the generic
`"Gemini API error: <message>"`. -/
theorem C10_handleGeminiError_case_sensitive (t m : String) (msg : Option String)
    (h1 : t ≠ "OVERLOADED_ERROR") (h2 : t ≠ "RATE_LIMIT_ERROR")
    (h3 : t ≠ "INVALID_REQUEST_ERROR") :
    handleGeminiError ⟨some "error", some (t, m), msg⟩ = "Gemini API error: " ++ m ∧
    handleGeminiError ⟨some "error", some ("OVERLOADED_ERROR", m), msg⟩ =
      "Gemini is currently experiencing high demand and is overloaded. Please wait a few minutes and try again." ∧
    handleGeminiError ⟨some "error", some ("RATE_LIMIT_ERROR", m), msg⟩ =
      "You have exceeded the rate limit. Please wait a few minutes before making more requests." ∧
    handleGeminiError ⟨some "error", some ("INVALID_REQUEST_ERROR", m), msg⟩ =
      "There was an issue with the request format. If this persists, please report it as a bug." := by
  have b1 : (t == "OVERLOADED_ERROR") = false := beq_eq_false_iff_ne.mpr h1
  have b2 : (t == "RATE_LIMIT_ERROR") = false := beq_eq_false_iff_ne.mpr h2
  have b3 : (t == "INVALID_REQUEST_ERROR") = false := beq_eq_false_iff_ne.mpr h3
  refine ⟨?_, ?_, ?_, ?_⟩ <;> simp [handleGeminiError, b1, b2, b3]

theorem C10_handleGeminiError_case_sensitive_witness :
    handleGeminiError ⟨some "error", some ("rate_limit_error", "Rate limit exceeded"), none⟩ =
      "Gemini API error: Rate limit exceeded" :=
  (C10_handleGeminiError_case_sensitive "rate_limit_error" "Rate limit exceeded" none
    (by decide) (by decide) (by decide)).1

/-! ## Claim about the missing Perplexity credential -/

/-- C4 counterexample: with the Perplexity credential absent,
the missing-credential error raised on first use inside
`expandTaskWithResearch` is caught by its generic catch and retried —
two backoff waits (5000 and 10000 ms) are performed — after which the
flow falls back to the no-research Gemini expansion instead of
surfacing the error; this contradicts the claim that the error is fatal
and never retried. -/
theorem C4_missing_credential_counterexample :
    expandTaskWithResearch false (.ok "research") (.ok "refined") (.ok "gemini-fallback") 0 =
      (.ok "gemini-fallback", [5000, 10000]) ∧
    getPerplexityClient false =
      .error "PERPLEXITY_API_KEY environment variable is missing. Set it to use research-backed features." :=
  ⟨rfl, rfl⟩

/-- C4 amended: requesting the research provider without its credential
raises the missing-credential error at the first attempted use
(`getPerplexityClient` throws), but the error is not fatal to the
operation: `expandTaskWithResearch`'s catch-all retries the research
flow twice, with backoffs 5000 and 10000 ms, and then returns the
no-research `expandTaskWithGemini` fallback instead of surfacing the
error. -/
theorem C4_missing_credential_retried_then_fallback
    (research refine fallback : Except String String) :
    getPerplexityClient false =
      .error "PERPLEXITY_API_KEY environment variable is missing. Set it to use research-backed features." ∧
    expandTaskWithResearch false research refine fallback 0 = (fallback, [5000, 10000]) := by
  refine ⟨rfl, ?_⟩
  simp [expandTaskWithResearch, expandTaskWithResearchAux, getPerplexityClient]

/-! ## Claims about `processGeminiResponse` -/

/-- C5 counterexample: the PRD→tasks shape check never inspects
`metadata` — a parsed result carrying a `tasks` array but no `metadata`
object is accepted and returned as-is, contradicting the claim that the
result is accepted only if it has both a `tasks` array and a `metadata`
object. -/
theorem C5_metadata_not_required_counterexample :
    processGeminiResponse 10 "\x7b\"tasks\": [1, 2]\x7d" 2 0 ⟨[], 0, []⟩ =
      (.val (.obj [("tasks", .arr [.num 1, .num 2])]), ⟨[], 0, []⟩) ∧
    (Json.obj [("tasks", .arr [.num 1, .num 2])]).getField "metadata" = none :=
  ⟨rfl, rfl⟩

/-- C5 amended: at the PRD→tasks call site the parsed result is accepted
exactly when it has a (truthy) `tasks` array — `metadata` is never
checked; when the `tasks` array's length differs from the requested
count a warning is logged but the result is returned as-is, without
failure or correction; a result without a `tasks` array fails the shape
check (shown at the exhausted-budget frame, where the failure
surfaces). -/
theorem C5_prd_shape_check (fuel : Nat) (text j : String) (r : Json)
    (numTasks retryCount : Nat) (st : PCtx)
    (hx : extractBraces text = some j) (hp : Json.parse j = some r) :
    (∀ ts, r.getField "tasks" = some (.arr ts) →
      processGeminiResponse (fuel + 1) text numTasks retryCount st =
        (.val r, ⟨st.repairs, st.repairCalls,
          if ts.length = numTasks then st.warns
          else st.warns ++ [expectedTasksWarn numTasks ts.length]⟩)) ∧
    ((∀ ts, r.getField "tasks" ≠ some (.arr ts)) →
      processGeminiResponse (fuel + 1) text numTasks 3 st =
        (.thrown ("Failed to process response: " ++
          "Failed to parse JSON response after multiple attempts"), st)) := by
  constructor
  · intro ts ht
    have hshape : prdShapeCheck j = some (r, ts) := by simp [prdShapeCheck, hp, ht]
    by_cases hl : ts.length = numTasks <;>
      simp [processGeminiResponse, geminiResponseStep, hx, hshape, hl]
  · intro hbad
    have hshape : prdShapeCheck j = none := by
      unfold prdShapeCheck
      rw [hp]
      cases hg : r.getField "tasks" with
      | none => simp [hg]
      | some v =>
        cases v with
        | arr ts => exact absurd hg (hbad ts)
        | null => simp [hg]
        | bool b => simp [hg]
        | num n => simp [hg]
        | str s => simp [hg]
        | obj fs => simp [hg]
    simp [processGeminiResponse, geminiResponseStep, hx, hshape]

theorem C5_prd_shape_check_witness :
    processGeminiResponse 10 "\x7b\"tasks\": [1, 2]\x7d" 5 0 ⟨[], 0, []⟩ =
      (.val (.obj [("tasks", .arr [.num 1, .num 2])]),
       ⟨[], 0, ["Expected 5 tasks, but got 2"]⟩) := by
  have h := (C5_prd_shape_check 9 "\x7b\"tasks\": [1, 2]\x7d" "\x7b\"tasks\": [1, 2]\x7d"
    (.obj [("tasks", .arr [.num 1, .num 2])]) 5 0 ⟨[], 0, []⟩ rfl rfl).1
    [.num 1, .num 2] rfl
  simpa [expectedTasksWarn] using h

/-- A brace-delimited but unparseable response used by the C3
counterexample and witness. -/
def badJsonText : String := "\x7bbad\x7d"

/-- C3 counterexample: on a brace-delimited response that never parses,
the cleanup budget (3 attempts) is exhausted and the controller then
performs exactly ONE repair round-trip before the operation fails —
here two repair responses are queued, the final state shows
`repairCalls = 1` with the second repair response still unconsumed —
contradicting the claimed repair budget of 2 attempts before failure
(the rejected repair promise is returned, not re-thrown, so no
enclosing catch can trigger the second repair). -/
theorem C3_single_repair_counterexample :
    processGeminiResponse 10 badJsonText 3 0 ⟨[badJsonText, badJsonText], 0, []⟩ =
      (.prom (.error ("Failed to fix JSON response: Failed to process response: " ++
        "Failed to process response: Failed to parse JSON response after multiple attempts")),
       ⟨[badJsonText], 1, []⟩) := rfl

/-- The `retryCount = 3` dead-end frame: extraction finds a brace window
that does not parse, the cleanup budget is spent, and the frame throws
through its own outer catch. -/
theorem prdDeadEnd (fuel : Nat) (text j : String) (numTasks : Nat) (st : PCtx)
    (hx : extractBraces text = some j) (hp : Json.parse j = none) :
    geminiResponseStep (fuel + 1) true text numTasks 3 st =
      (.thrown ("Failed to process response: " ++
        "Failed to parse JSON response after multiple attempts"), st) := by
  have hshape : prdShapeCheck j = none := by simp [prdShapeCheck, hp]
  simp [geminiResponseStep, hx, hshape]

/-- C3 amended: in the PRD path, when the brace-window extraction
succeeds but parsing keeps failing, the local cleanup budget of 3
attempts is spent (`retryCount` 1, 2, 3 on the re-scanned window) and
the controller then escalates to at most ONE `retryWithGemini` repair
round-trip — from the `retryCount = 1` frame, the only frame whose
shared counter still admits repair whose result is observed — and the
operation fails as soon as that single repair response fails to parse,
leaving any further repair budget unused; the nominal budget of 2
repair attempts is reachable only on the path where no JSON braces are
found before any cleanup runs. -/
theorem C3_cleanup_exhaustion_single_repair (fuel : Nat) (text j r1 j1 : String)
    (rest : List String) (numTasks rcalls : Nat) (w : List String)
    (hx : extractBraces text = some j) (hj : extractBraces j = some j)
    (hp : Json.parse j = none)
    (hr : extractBraces r1 = some j1) (hj1 : extractBraces j1 = some j1)
    (hp1 : Json.parse j1 = none) :
    processGeminiResponse (fuel + 1 + 1 + 1 + 1 + 1) text numTasks 0 ⟨r1 :: rest, rcalls, w⟩ =
      (.prom (.error ("Failed to fix JSON response: " ++
        ("Failed to process response: " ++ ("Failed to process response: " ++
          "Failed to parse JSON response after multiple attempts")))),
       ⟨rest, rcalls + 1, w⟩) := by
  have hcleanText : cleanupJsonResponse text = j := by simp [cleanupJsonResponse, hx]
  have hcleanJ : cleanupJsonResponse j = j := by simp [cleanupJsonResponse, hj]
  have hcleanR1 : cleanupJsonResponse r1 = j1 := by simp [cleanupJsonResponse, hr]
  have hshapeJ : prdShapeCheck j = none := by simp [prdShapeCheck, hp]
  have hshapeJ1 : prdShapeCheck j1 = none := by simp [prdShapeCheck, hp1]
  simp [processGeminiResponse, geminiResponseStep, hx, hj, hr, hj1,
    hcleanText, hcleanJ, hcleanR1, hshapeJ, hshapeJ1]

theorem C3_cleanup_exhaustion_single_repair_witness :
    processGeminiResponse 5 badJsonText 4 0 ⟨[badJsonText, badJsonText], 7, ["earlier"]⟩ =
      (.prom (.error ("Failed to fix JSON response: " ++
        ("Failed to process response: " ++ ("Failed to process response: " ++
          "Failed to parse JSON response after multiple attempts")))),
       ⟨[badJsonText], 8, ["earlier"]⟩) := by
  have h := C3_cleanup_exhaustion_single_repair 0 badJsonText badJsonText badJsonText
    badJsonText [badJsonText] 4 7 ["earlier"] rfl rfl rfl rfl rfl rfl
  simpa using h

/-! ## Claims about the subtask and complexity response processing -/

/-- C6: for every array the model returns in the Task→subtasks path —
both in `createSubtasksWithGemini` and in the `fixSubtasksJson` repair
path — each element's `id` is unconditionally overwritten to the string
`"<parentTaskId>.<positionIndex+1>"` regardless of the id the model
assigned, and a length mismatch with the requested count is warned
(main path) but never corrected: the returned array keeps the model's
length. -/
theorem C6_subtask_id_overwrite (response : String) (fixResponse : Option String)
    (parentTaskId : String) (numSubtasks : Nat) (l : List Json)
    (h : Json.parse (extractSubtasksJson response) = some (.arr l)) :
    createSubtasksWithGemini response fixResponse parentTaskId numSubtasks =
      (.ok (overwriteSubtaskIds parentTaskId l),
       if l.length = numSubtasks then []
       else [expectedSubtasksWarn numSubtasks l.length]) ∧
    (overwriteSubtaskIds parentTaskId l).length = l.length ∧
    (∀ i, i < l.length →
      (overwriteSubtaskIds parentTaskId l)[i]?.bind (fun st => st.getField "id") =
        some (.str (parentTaskId ++ "." ++ toString (i + 1)))) ∧
    (∀ r2 l2, Json.parse (extractSubtasksJson r2) = some (.arr l2) →
      fixSubtasksJson (some r2) parentTaskId numSubtasks =
        .ok (overwriteSubtaskIds parentTaskId l2)) := by
  refine ⟨?_, mapIdxFrom_length _ _ _, ?_, ?_⟩
  · simp only [createSubtasksWithGemini, h]
  · intro i hi
    have hl : l[i]? = some (l.get ⟨i, hi⟩) := List.getElem?_eq_getElem hi
    simp [overwriteSubtaskIds, mapIdxFrom_getElem?, hl, getField_setField_self]
  · intro r2 l2 h2
    simp [fixSubtasksJson, h2]

/-- Concrete model response for the C6 witness: a fenced array with
model-assigned ids `"9.9"` and `"bad"`. -/
def c6resp : String :=
  "ok ```json\n[\x7b\"id\": \"9.9\", \"title\": \"X\"\x7d, \x7b\"id\": \"bad\"\x7d]\n``` done"

set_option maxRecDepth 40000 in
theorem C6_subtask_id_overwrite_witness :
    createSubtasksWithGemini c6resp none "7" 3 =
      (.ok [.obj [("id", .str "7.1"), ("title", .str "X")], .obj [("id", .str "7.2")]],
       ["Expected 3 subtasks, but got 2"]) ∧
    fixSubtasksJson (some "[\x7b\"id\": 1\x7d]") "7" 5 = .ok [.obj [("id", .str "7.1")]] := by
  have h := C6_subtask_id_overwrite c6resp none "7" 3
    [.obj [("id", .str "9.9"), ("title", .str "X")], .obj [("id", .str "bad")]] (by rfl)
  refine ⟨?_, ?_⟩
  · have h1 := h.1
    simpa [overwriteSubtaskIds, mapIdxFrom, Json.setField, setFieldList,
      expectedSubtasksWarn] using h1
  · have h4 := h.2.2.2 "[\x7b\"id\": 1\x7d]" [.obj [("id", .num 1)]] (by rfl)
    simpa [overwriteSubtaskIds, mapIdxFrom, Json.setField, setFieldList] using h4

/-- Concrete model response for the C9 counterexample: the parsed object
itself carries a `taskId`. -/
def c9resp : String := "\x7b\"taskId\": 999, \"complexityScore\": 5\x7d"

/-- C9 counterexample: `{ taskId: taskData.id, ...complexityData }`
applies the spread AFTER the caller-supplied id, so when the model's
object itself carries a `taskId` field (here 999) it overwrites the
caller's id (here 1): the returned `taskId` does NOT equal the caller's
`taskData.id`, contradicting the claim. -/
theorem C9_taskId_override_counterexample :
    analyzeTaskComplexity c9resp (.num 1) =
      .ok (.obj [("taskId", .num 999), ("complexityScore", .num 5)]) ∧
    Json.num 999 ≠ Json.num 1 :=
  ⟨rfl, by simp⟩

/-- C9 amended: for every complexity-analysis response whose extracted
text parses as a single JSON object, the returned value is that object
with the caller-supplied task id attached only as a DEFAULT `taskId` —
a `taskId` field supplied by the model takes precedence (the spread in
`{ taskId: taskData.id, ...complexityData }` is applied after the
default); every other field is returned without coercion, and a parse
failure yields an error, not a fallback. -/
theorem C9_complexity_attach (response : String) (tid : Json) (fs : List (String × Json))
    (h : Json.parse (extractComplexityJson response) = some (.obj fs)) :
    analyzeTaskComplexity response tid = .ok (attachTaskId tid (.obj fs)) ∧
    (attachTaskId tid (.obj fs)).getField "taskId" =
      some ((lookupField fs "taskId").getD tid) ∧
    (lookupField fs "taskId" = none →
      (attachTaskId tid (.obj fs)).getField "taskId" = some tid) ∧
    (∀ k, k ≠ "taskId" →
      (attachTaskId tid (.obj fs)).getField k = lookupField fs k) ∧
    (∀ r2, Json.parse (extractComplexityJson r2) = none →
      analyzeTaskComplexity r2 tid = .error "Failed to parse complexity analysis") := by
  refine ⟨?_, ?_, ?_, ?_, ?_⟩
  · simp [analyzeTaskComplexity, h]
  · simp [attachTaskId, Json.getField, lookupField]
  · intro hnone
    simp [attachTaskId, Json.getField, lookupField, hnone]
  · intro k hk
    have hne : ("taskId" == k) = false := beq_eq_false_iff_ne.mpr (Ne.symm hk)
    simp [attachTaskId, Json.getField, lookupField, hne,
      lookupField_removeField_other _ _ _ hk]
  · intro r2 h2
    simp [analyzeTaskComplexity, h2]

theorem C9_complexity_attach_witness :
    analyzeTaskComplexity "\x7b\"complexityScore\": 5\x7d" (.num 1) =
      .ok (.obj [("taskId", .num 1), ("complexityScore", .num 5)]) ∧
    analyzeTaskComplexity "no json at all" (.num 1) =
      .error "Failed to parse complexity analysis" := by
  have h := C9_complexity_attach "\x7b\"complexityScore\": 5\x7d" (.num 1)
    [("complexityScore", .num 5)] (by rfl)
  refine ⟨?_, h.2.2.2.2 "no json at all" (by rfl)⟩
  simpa [attachTaskId, removeField, lookupField] using h.1
